import Mathlib

/-!
Verification of the ConnectMyPool cloud-API client
(`custom_components/connectmypool`): the failure classifier
(`_raise_for_failure`), the transport (`_post`), the polling cache
(`pool_config` / `pool_status`), the action serializer (`pool_action`
and its lock), the mode-cycling resolvers (`select.py` / `switch.py`),
and the observability layer (`diagnostics.py` / `config_flow.py`).

The Python code is shallowly embedded: JSON payloads become an
inductive `Json` type, the mutable client object becomes an explicit
`ApiState` threaded through each operation, the network and the event
loop become oracles passed in as arguments, and raised exceptions
become `Except` results.
-/

namespace ConnectMyPool

/-- JSON values as delivered by the cloud endpoints.  Numbers are
modelled as integers (the wire protocol only uses integer codes and
scalar fields in the logic under verification). -/
inductive Json where
  | null : Json
  | bool : Bool → Json
  | num : Int → Json
  | str : String → Json
  | arr : List Json → Json
  | obj : List (String × Json) → Json

/-- A Python `dict` payload: an association list with the usual
first-match lookup (keys produced by a JSON parser are distinct). -/
abbrev Dict := List (String × Json)

/-- Python dict lookup, i.e. `payload.get(k)` / `k in payload`. -/
def dictGet (p : Dict) (k : String) : Option Json :=
  match p with
  | [] => none
  | (k2, v) :: rest => if k2 = k then some v else dictGet rest k

/-- Python `str(v)` restricted to the scalar values the API logic
inspects; composite values get a placeholder rendering (the code under
verification never formats them). -/
def pyStr : Json → String
  | .null => "None"
  | .bool b => if b then "True" else "False"
  | .num n => toString n
  | .str s => s
  | .arr _ => "<list>"
  | .obj _ => "<dict>"

/-- Decimal-digit run evaluated as a `Nat`; `none` on the empty run or
a non-digit. -/
def digitsVal (cs : List Char) : Option Nat :=
  if cs = [] then none
  else if cs.all Char.isDigit then
    some (cs.foldl (fun a c => a * 10 + (c.toNat - 48)) 0)
  else none

/-- Python `int(s)` on a string: strip whitespace, optional sign,
decimal digits; `ValueError` (here `none`) otherwise. -/
def parsePyInt (s : String) : Option Int :=
  match s.trim.toList with
  | [] => none
  | '+' :: rest => (digitsVal rest).map Int.ofNat
  | '-' :: rest => (digitsVal rest).map (fun n => -(Int.ofNat n))
  | cs => (digitsVal cs).map Int.ofNat

/-- Python `int(v)` on a JSON value: ints pass through, bools coerce
to 0/1, numeric strings parse; anything else raises (`none`). -/
def pyToInt : Json → Option Int
  | .num n => some n
  | .bool b => some (if b then 1 else 0)
  | .str s => parsePyInt s
  | _ => none

/-- The `ConnectMyPoolError` exception hierarchy of `api.py`.
`transport` is the base `ConnectMyPoolError` raised directly by
`_post`; the other four are its subclasses raised by
`_raise_for_failure`, carrying the numeric failure code and the
server-supplied description (the code formats them into the message
string `f"{code}: {desc}"`; we keep the two fields). -/
inductive CmpError where
  | transport (msg : String)
  | auth (code : Int) (desc : String)
  | throttle (code : Int) (desc : String)
  | notConnected (code : Int) (desc : String)
  | action (code : Int) (desc : String)
deriving DecidableEq, Repr

/-- An exception escaping `_post`: either one of the typed
`ConnectMyPoolError`s, or a Python exception outside that hierarchy
(e.g. `json.JSONDecodeError` from `resp.json`, or `TypeError` from
`int(...)`), identified by its class name. -/
inductive PostFail where
  | cmp (e : CmpError)
  | pyExc (name : String)

/-- From `const.py`: `FAILURE_CODE_THROTTLED = 6`. -/
def FAILURE_CODE_THROTTLED : Int := 6

/-- From `const.py`: `FAILURE_CODE_POOL_NOT_CONNECTED = 7`. -/
def FAILURE_CODE_POOL_NOT_CONNECTED : Int := 7

/-- The description used by `_raise_for_failure`:
`str(payload.get("failure_description", "Unknown error"))`. -/
def failure_desc (payload : Dict) : String :=
  match dictGet payload "failure_description" with
  | none => "Unknown error"
  | some d => pyStr d

/-- Embedding of `api.py` `_raise_for_failure`: if `failure_code` is absent the
payload passes through; otherwise the code is mapped to a typed error
(3,4,5 auth; 6 throttle; 7 not-connected; else action), carrying the
code and the `failure_desc` description.  A `failure_code` value that
Python's `int()` cannot convert raises `TypeError`, outside the
`ConnectMyPoolError` hierarchy. -/
def raise_for_failure (payload : Dict) : Except PostFail Dict :=
  match dictGet payload "failure_code" with
  | none => .ok payload
  | some v =>
    match pyToInt v with
    | none => .error (.pyExc "TypeError")
    | some code =>
      let desc := failure_desc payload
      if code = 3 ∨ code = 4 ∨ code = 5 then .error (.cmp (.auth code desc))
      else if code = FAILURE_CODE_THROTTLED then .error (.cmp (.throttle code desc))
      else if code = FAILURE_CODE_POOL_NOT_CONNECTED then
        .error (.cmp (.notConnected code desc))
      else .error (.cmp (.action code desc))

/-- The observable outcome of the HTTP round-trip inside `_post`'s
`try` block, i.e. of `session.post(...)`, `resp.raise_for_status()` and
`await resp.json(content_type=None)`:
`timeoutErr` = `asyncio.TimeoutError`; `respErr` =
`aiohttp.ClientResponseError` from `raise_for_status` (carrying the
HTTP status); `clientErr` = any other `aiohttp.ClientError`;
`decodeErr` = the body was read but is not valid JSON, so
`resp.json` raises `json.JSONDecodeError` (a `ValueError`, not an
`aiohttp.ClientError`); `parsed j` = the body parsed to the JSON
value `j`. -/
inductive HttpEvent where
  | timeoutErr
  | respErr (status : Nat)
  | clientErr
  | decodeErr
  | parsed (j : Json)

/-- The list-normalization step of `_post`:
`payload = payload[0] if payload else {}` when the parsed value is a
list. -/
def normalizePayload (j : Json) : Json :=
  match j with
  | .arr [] => .obj []
  | .arr (x :: _) => x
  | other => other

/-- Python `isinstance(payload, dict)`. -/
def isObjJson : Json → Bool
  | .obj _ => true
  | _ => false

/-- The Python class name of a JSON value, for the
`Unexpected payload type` message. -/
def jsonTypeName : Json → String
  | .null => "NoneType"
  | .bool _ => "bool"
  | .num _ => "int"
  | .str _ => "str"
  | .arr _ => "list"
  | .obj _ => "dict"

/-- Embedding of `api.py` `ConnectMyPoolApi._post`, as a function of the HTTP
outcome.  The three `except` clauses wrap timeout / HTTP-status /
network errors in the base `ConnectMyPoolError`; a JSON decode error
matches none of them and escapes as a raw `JSONDecodeError`.  A
list-shaped payload is replaced by its first element (or `{}` when
empty); a non-dict result raises `ConnectMyPoolError`; finally the
payload goes through `_raise_for_failure`. -/
def post (ev : HttpEvent) : Except PostFail Dict :=
  match ev with
  | .timeoutErr => .error (.cmp (.transport "Timeout talking to ConnectMyPool"))
  | .respErr status =>
    .error (.cmp (.transport ("HTTP " ++ toString status ++ " from ConnectMyPool")))
  | .clientErr => .error (.cmp (.transport "Network error talking to ConnectMyPool"))
  | .decodeErr => .error (.pyExc "JSONDecodeError")
  | .parsed j =>
    match normalizePayload j with
    | .obj kvs => raise_for_failure kvs
    | other =>
      .error (.cmp (.transport ("Unexpected payload type: " ++ jsonTypeName other)))

/-- Discriminator: the outcome is a raised `ConnectMyPoolThrottleError`
(this is what the `except ConnectMyPoolThrottleError` clauses of
`pool_config` / `pool_status` catch). -/
def isThrottleFail : PostFail → Bool
  | .cmp (.throttle _ _) => true
  | _ => false

/-- Discriminator: the call failed with the base `ConnectMyPoolError`
raised directly by `_post` (the spec's `TransportError`). -/
def isTransportFail : Except PostFail Dict → Bool
  | .error (.cmp (.transport _)) => true
  | _ => false

/-- Discriminator: the call failed with some exception from the
`ConnectMyPoolError` hierarchy. -/
def isCmpFail : Except PostFail Dict → Bool
  | .error (.cmp _) => true
  | _ => false

/-- The mutable fields of a `ConnectMyPoolApi` instance that the
caching logic reads and writes.  `time.monotonic()` is modelled by a
`Nat` clock passed to each operation. -/
structure ApiState where
  minPollSeconds : Nat
  lastStatusAt : Option Nat
  lastConfigAt : Option Nat
  cachedStatus : Option Dict
  cachedConfig : Option Dict
  fastPollUntil : Option Nat

/-- Embedding of `ConnectMyPoolApi.__init__`: empty caches, no fast-poll deadline,
`min_poll_seconds` clamped by `max(1, int(min_poll_seconds))` (default
argument 60). -/
def ApiState.init (min_poll_seconds : Int) : ApiState :=
  { minPollSeconds := (max 1 min_poll_seconds).toNat
  , lastStatusAt := none
  , lastConfigAt := none
  , cachedStatus := none
  , cachedConfig := none
  , fastPollUntil := none }

/-- Embedding of `ConnectMyPoolApi._fast_poll_active`: a deadline is set and the
current time is still before it. -/
def fast_poll_active (s : ApiState) (now : Nat) : Bool :=
  match s.fastPollUntil with
  | none => false
  | some d => decide (now < d)

/-- Embedding of `ConnectMyPoolApi._mark_fast_poll`: deadline becomes
`now + max(0, seconds)`. -/
def mark_fast_poll (s : ApiState) (now : Nat) (seconds : Int) : ApiState :=
  { s with fastPollUntil := some (now + (max 0 seconds).toNat) }

/-- Outcome of one client operation: the state after the call, whether
a network request was issued, and the returned payload or escaping
exception. -/
structure PoolResult where
  state : ApiState
  networkCalled : Bool
  result : Except PostFail Dict

/-- The guard at the top of `pool_status`: `some cached` exactly when
`not force and not self._fast_poll_active() and self._cached_status is
not None and self._last_status_at is not None and (now -
self._last_status_at) < self._min_poll_seconds`. -/
def status_cache_hit (s : ApiState) (now : Nat) (force : Bool) : Option Dict :=
  if force then none
  else if fast_poll_active s now then none
  else
    match s.cachedStatus, s.lastStatusAt with
    | some cached, some t =>
      if now - t < s.minPollSeconds then some cached else none
    | _, _ => none

/-- Same guard for `pool_config`. -/
def config_cache_hit (s : ApiState) (now : Nat) (force : Bool) : Option Dict :=
  if force then none
  else if fast_poll_active s now then none
  else
    match s.cachedConfig, s.lastConfigAt with
    | some cached, some t =>
      if now - t < s.minPollSeconds then some cached else none
    | _, _ => none

/-- Embedding of `ConnectMyPoolApi.pool_status` as a function of the clock and of
the outcome `net` the inner `_post` call would have (consulted only
when the guard does not return the cache).  On success the payload is
cached with timestamp `now`; a `ConnectMyPoolThrottleError` is caught
and the stale cache returned when one exists; every other exception
propagates and the state is untouched. -/
def pool_status (s : ApiState) (now : Nat) (force : Bool)
    (net : Except PostFail Dict) : PoolResult :=
  match status_cache_hit s now force with
  | some cached => { state := s, networkCalled := false, result := .ok cached }
  | none =>
    match net with
    | .ok payload =>
      { state := { s with cachedStatus := some payload, lastStatusAt := some now }
      , networkCalled := true, result := .ok payload }
    | .error e =>
      if isThrottleFail e then
        match s.cachedStatus with
        | some cached => { state := s, networkCalled := true, result := .ok cached }
        | none => { state := s, networkCalled := true, result := .error e }
      else { state := s, networkCalled := true, result := .error e }

/-- Embedding of `ConnectMyPoolApi.pool_config`, mirror image of `pool_status` on
the config cache fields. -/
def pool_config (s : ApiState) (now : Nat) (force : Bool)
    (net : Except PostFail Dict) : PoolResult :=
  match config_cache_hit s now force with
  | some cached => { state := s, networkCalled := false, result := .ok cached }
  | none =>
    match net with
    | .ok payload =>
      { state := { s with cachedConfig := some payload, lastConfigAt := some now }
      , networkCalled := true, result := .ok payload }
    | .error e =>
      if isThrottleFail e then
        match s.cachedConfig with
        | some cached => { state := s, networkCalled := true, result := .ok cached }
        | none => { state := s, networkCalled := true, result := .error e }
      else { state := s, networkCalled := true, result := .error e }

/-- Embedding of `ConnectMyPoolApi.pool_action` (the body inside the lock) as a
function of the `_post` outcome: always a network call; on success
`_mark_fast_poll(300)` runs and the payload is returned; on an
exception nothing is marked and the exception propagates. -/
def pool_action (s : ApiState) (now : Nat)
    (net : Except PostFail Dict) : PoolResult :=
  match net with
  | .ok payload =>
    { state := mark_fast_poll s now 300, networkCalled := true, result := .ok payload }
  | .error e => { state := s, networkCalled := true, result := .error e }

/-- From `const.py`: `CHANNEL_MODES` (insertion order of the Python dict). -/
def CHANNEL_MODES : List (Int × String) :=
  [(0, "Off"), (1, "Auto"), (2, "On"),
   (3, "Low Speed"), (4, "Medium Speed"), (5, "High Speed")]

/-- Python `next((k for k, v in MODES.items() if v == option), None)`. -/
def findDesired (modes : List (Int × String)) (option : String) : Option Int :=
  match modes with
  | [] => none
  | (k, v) :: rest => if v = option then some k else findDesired rest option

/-- Result of `ChannelModeSelect.async_select_option`.  `success i`
means the loop returned after issuing `i` cycle actions;
`cycleFailed e` means the `_do_action` call raised (the
`ConnectMyPoolError` is re-raised as `HomeAssistantError(str(err))`,
preserving the message — we keep the underlying error value);
`unreachable option` is the final `HomeAssistantError` naming the
requested mode. -/
inductive SelectOutcome where
  | success (cyclesIssued : Nat)
  | unsupported (option : String)
  | cycleFailed (e : CmpError)
  | unreachable (option : String)
deriving DecidableEq, Repr

/-- The `for _ in range(8)` loop of `async_select_option`: at iteration
`i` the current mode is `obs i` (the mode visible after `i` cycle
actions and refreshes); on mismatch the cycle action runs, with
outcome `act i` (`none` = success, `some e` = raised). -/
def cycle_loop (desired : Int) (option : String) (obs : Nat → Option Int)
    (act : Nat → Option CmpError) (i : Nat) : Nat → SelectOutcome
  | 0 => .unreachable option
  | fuel + 1 =>
    if obs i = some desired then .success i
    else
      match act i with
      | some e => .cycleFailed e
      | none => cycle_loop desired option obs act (i + 1) fuel

/-- Embedding of `select.py` `ChannelModeSelect.async_select_option`: resolve the
option label to a mode number via `CHANNEL_MODES` (unknown labels
raise `HomeAssistantError` before any action), then cycle up to 8
times. -/
def async_select_option (option : String) (obs : Nat → Option Int)
    (act : Nat → Option CmpError) : SelectOutcome :=
  match findDesired CHANNEL_MODES option with
  | none => .unsupported option
  | some desired => cycle_loop desired option obs act 0 8

/-- Result of `ChannelSwitch.async_turn_on`. -/
inductive TurnOnOutcome where
  | success (cyclesIssued : Nat)
  | cycleFailed (e : CmpError)
  | failed
deriving DecidableEq, Repr

/-- Python `mode in desired_on` with `desired_on` the set 2,3,4,5. -/
def mode_in_desired_on (m : Option Int) : Bool :=
  match m with
  | some v => decide (v = 2 ∨ v = 3 ∨ v = 4 ∨ v = 5)
  | none => false

/-- Python `mode is not None and mode != 0` (the "on enough" test). -/
def mode_on_enough (m : Option Int) : Bool :=
  match m with
  | some v => decide (v ≠ 0)
  | none => false

/-- The loop of `async_turn_on` with its final grace re-read: after the
8 iterations the mode is read once more and a non-off mode still
counts as success. -/
def turn_on_loop (obs : Nat → Option Int) (act : Nat → Option CmpError)
    (i : Nat) : Nat → TurnOnOutcome
  | 0 => if mode_on_enough (obs i) then .success i else .failed
  | fuel + 1 =>
    if mode_in_desired_on (obs i) then .success i
    else if mode_on_enough (obs i) then .success i
    else
      match act i with
      | some e => .cycleFailed e
      | none => turn_on_loop obs act (i + 1) fuel

/-- Embedding of `switch.py` `ChannelSwitch.async_turn_on`. -/
def async_turn_on (obs : Nat → Option Int)
    (act : Nat → Option CmpError) : TurnOnOutcome :=
  turn_on_loop obs act 0 8

/-- Program counter of one `pool_action` coroutine: before the
`async with self._action_lock`, holding the lock with the `_post`
request in flight, holding the lock during `_mark_fast_poll`, and
finished (returned or raised, lock released). -/
inductive ActionPc where
  | start
  | inFlight
  | marking
  | finished
deriving DecidableEq, Repr

/-- Two concurrent `pool_action` coroutines on one client plus the
client's `asyncio.Lock` (`none` = free, `some false` = held by task 1,
`some true` = held by task 2). -/
structure ActionSystem where
  pc1 : ActionPc
  pc2 : ActionPc
  holder : Option Bool
deriving DecidableEq, Repr

/-- Both coroutines about to call `pool_action`; lock free. -/
def ActionSystem.init : ActionSystem :=
  { pc1 := .start, pc2 := .start, holder := none }

/-- Interleaving semantics of the two coroutines under the cooperative
event loop: `acquire` needs the lock free (otherwise
`asyncio.Lock.acquire` suspends), a completed `_post` moves to the
deadline update, a raising `_post` leaves the `async with` block
(releasing the lock), and the deadline update completes the block. -/
inductive ActionStep : ActionSystem → ActionSystem → Prop where
  | acquire1 : ∀ s, s.pc1 = .start → s.holder = none →
      ActionStep s { s with pc1 := .inFlight, holder := some false }
  | postOk1 : ∀ s, s.pc1 = .inFlight →
      ActionStep s { s with pc1 := .marking }
  | postRaise1 : ∀ s, s.pc1 = .inFlight →
      ActionStep s { s with pc1 := .finished, holder := none }
  | finish1 : ∀ s, s.pc1 = .marking →
      ActionStep s { s with pc1 := .finished, holder := none }
  | acquire2 : ∀ s, s.pc2 = .start → s.holder = none →
      ActionStep s { s with pc2 := .inFlight, holder := some true }
  | postOk2 : ∀ s, s.pc2 = .inFlight →
      ActionStep s { s with pc2 := .marking }
  | postRaise2 : ∀ s, s.pc2 = .inFlight →
      ActionStep s { s with pc2 := .finished, holder := none }
  | finish2 : ∀ s, s.pc2 = .marking →
      ActionStep s { s with pc2 := .finished, holder := none }

/-- States reachable from two fresh concurrent `pool_action` calls. -/
inductive ActionReach : ActionSystem → Prop where
  | base : ActionReach ActionSystem.init
  | step : ∀ s t, ActionReach s → ActionStep s t → ActionReach t

/-- A coroutine is inside the `async with` block (network call in
flight or cache-deadline update running). -/
def busy (pc : ActionPc) : Prop := pc = ActionPc.inFlight ∨ pc = ActionPc.marking

/-- Lock-ownership invariant used to prove mutual exclusion. -/
def lockInv (s : ActionSystem) : Prop :=
  (busy s.pc1 → s.holder = some false) ∧ (busy s.pc2 → s.holder = some true)

/-- From `diagnostics.py`: the redaction marker. -/
def REDACTED : String := "***REDACTED***"

mutual

/-- Embedding of `diagnostics.py` `_redact`: recursively rebuild dicts and lists,
replacing the value under any key named `pool_api_code`
(`CONF_POOL_API_CODE` is that same string) with the marker. -/
def redact : Json → Json
  | .null => .null
  | .bool b => .bool b
  | .num n => .num n
  | .str s => .str s
  | .arr xs => .arr (redactList xs)
  | .obj kvs => .obj (redactPairs kvs)

/-- The map of `_redact` over the elements of a list. -/
def redactList : List Json → List Json
  | [] => []
  | x :: xs => redact x :: redactList xs

/-- The map of `_redact` over the items of a dict. -/
def redactPairs : List (String × Json) → List (String × Json)
  | [] => []
  | (k, v) :: rest =>
    (k, if k = "pool_api_code" then Json.str REDACTED else redact v)
      :: redactPairs rest

end

mutual

/-- No value stored under a `pool_api_code` key anywhere in the value
is anything but the redaction marker. -/
def redactedOk : Json → Bool
  | .arr xs => redactedOkList xs
  | .obj kvs => redactedOkPairs kvs
  | _ => true

/-- Conjunction of `redactedOk` over list elements. -/
def redactedOkList : List Json → Bool
  | [] => true
  | x :: xs => redactedOk x && redactedOkList xs

/-- Conjunction of `redactedOk` over dict items. -/
def redactedOkPairs : List (String × Json) → Bool
  | [] => true
  | (k, v) :: rest =>
    (if k = "pool_api_code" then
        match v with
        | .str s => decide (s = REDACTED)
        | _ => false
      else redactedOk v) && redactedOkPairs rest

end

mutual

/-- No key named `pool_api_code` occurs anywhere in the value (used to
describe the option dicts produced by the options flow, whose schema
only has `scan_interval`, `wait_for_execution`,
`expose_channel_switches`, `expose_setpoint_numbers`,
`temperature_scale` and `base_url`). -/
def noApiCodeKey : Json → Bool
  | .arr xs => noApiCodeKeyList xs
  | .obj kvs => noApiCodeKeyPairs kvs
  | _ => true

/-- Conjunction of `noApiCodeKey` over list elements. -/
def noApiCodeKeyList : List Json → Bool
  | [] => true
  | x :: xs => noApiCodeKey x && noApiCodeKeyList xs

/-- Conjunction of `noApiCodeKey` over dict items. -/
def noApiCodeKeyPairs : List (String × Json) → Bool
  | [] => true
  | (k, v) :: rest =>
    (decide (k ≠ "pool_api_code") && noApiCodeKey v) && noApiCodeKeyPairs rest

end

/-- The inputs `async_get_config_entry_diagnostics` reads:
`entry.title`, `entry.data`, `entry.options`, the api's `base_url`
(absent when no api object is stored), and the coordinator's last
status snapshot (absent when no coordinator is stored), plus the
stored `config` payload. -/
structure DiagData where
  title : String
  entryData : Dict
  entryOptions : Dict
  baseUrl : Option String
  config : Json
  coordinatorData : Option Json

/-- Embedding of `diagnostics.py` `async_get_config_entry_diagnostics`: `_redact` is
applied to `entry.data`, to the stored `config` and to the
coordinator's data, while `title`, `options` and `base_url` are passed
through as-is. -/
def diagnostics (d : DiagData) : Json :=
  .obj
    [ ("entry", .obj
        [ ("title", .str d.title)
        , ("data", redact (.obj d.entryData))
        , ("options", .obj d.entryOptions) ])
    , ("api", .obj
        [ ("base_url",
           match d.baseUrl with
           | none => Json.null
           | some u => .str u) ])
    , ("config", redact d.config)
    , ("last_status",
       match d.coordinatorData with
       | none => Json.null
       | some j => redact j) ]

/-! SHA-1 (FIPS 180), the model of Python's `hashlib.sha1(...).hexdigest()`
used by `config_flow._stable_id`.  Machine words are `Nat`s reduced
mod `2 ^ 32`. -/

/-- Truncation to a 32-bit word. -/
def w32 (n : Nat) : Nat := n % 4294967296

/-- Left rotation of a 32-bit word. -/
def rotl32 (x k : Nat) : Nat := w32 ((x <<< k) ||| (x >>> (32 - k)))

/-- Bitwise complement of a 32-bit word. -/
def not32 (x : Nat) : Nat := x ^^^ 4294967295

/-- UTF-8 encoding of one code point (`str.encode("utf-8")`). -/
def utf8EncodeChar (c : Char) : List Nat :=
  let n := c.toNat
  if n < 128 then [n]
  else if n < 2048 then [192 + n / 64, 128 + n % 64]
  else if n < 65536 then [224 + n / 4096, 128 + (n / 64) % 64, 128 + n % 64]
  else [240 + n / 262144, 128 + (n / 4096) % 64, 128 + (n / 64) % 64, 128 + n % 64]

/-- UTF-8 encoding of a string as a byte list. -/
def utf8Encode (s : String) : List Nat :=
  s.data.foldr (fun c acc => utf8EncodeChar c ++ acc) []

/-- The `k` big-endian bytes of `n`. -/
def beBytes (k n : Nat) : List Nat :=
  match k with
  | 0 => []
  | j + 1 => beBytes j (n / 256) ++ [n % 256]

/-- SHA-1 message padding: `0x80`, zeros to 56 mod 64, then the
64-bit big-endian bit length. -/
def sha1Pad (msg : List Nat) : List Nat :=
  let len := msg.length
  let z := (120 - ((len + 1) % 64)) % 64
  msg ++ [128] ++ List.replicate z 0 ++ beBytes 8 (8 * len)

/-- Big-endian 32-bit words from a byte list. -/
def bytesToWords : List Nat → List Nat
  | a :: b :: c :: d :: rest =>
    (((a * 256 + b) * 256 + c) * 256 + d) :: bytesToWords rest
  | _ => []

/-- Extend the 16-word block schedule by `fuel` further words
(`w[i] = rotl1 (w[i-3] xor w[i-8] xor w[i-14] xor w[i-16])`). -/
def extendSchedule (ws : List Nat) : Nat → List Nat
  | 0 => ws
  | fuel + 1 =>
    let n := ws.length
    let w := rotl32 ((ws.getD (n - 3) 0) ^^^ (ws.getD (n - 8) 0) ^^^
      (ws.getD (n - 14) 0) ^^^ (ws.getD (n - 16) 0)) 1
    extendSchedule (ws ++ [w]) fuel

/-- The SHA-1 round function `f_t`. -/
def sha1F (t b c d : Nat) : Nat :=
  if t < 20 then (b &&& c) ||| (not32 b &&& d)
  else if t < 40 then b ^^^ c ^^^ d
  else if t < 60 then (b &&& c) ||| (b &&& d) ||| (c &&& d)
  else b ^^^ c ^^^ d

/-- The SHA-1 round constants `K_t`. -/
def sha1K (t : Nat) : Nat :=
  if t < 20 then 1518500249
  else if t < 40 then 1859775393
  else if t < 60 then 2400959708
  else 3395469782

/-- The five 32-bit chaining values. -/
abbrev Sha1State := Nat × Nat × Nat × Nat × Nat

/-- One SHA-1 round. -/
def sha1Round (w : List Nat) (st : Sha1State) (t : Nat) : Sha1State :=
  let (a, b, c, d, e) := st
  let temp := w32 (rotl32 a 5 + sha1F t b c d + e + sha1K t + w.getD t 0)
  (temp, a, rotl32 b 30, c, d)

/-- SHA-1 compression of one 64-byte block. -/
def sha1Compress (h : Sha1State) (block : List Nat) : Sha1State :=
  let ws := extendSchedule (bytesToWords block) 64
  let (a, b, c, d, e) := (List.range 80).foldl (sha1Round ws) h
  let (h0, h1, h2, h3, h4) := h
  (w32 (h0 + a), w32 (h1 + b), w32 (h2 + c), w32 (h3 + d), w32 (h4 + e))

/-- Fold the compression over consecutive 64-byte blocks (fuel-driven
so that the kernel can evaluate it). -/
def sha1BlocksAux (h : Sha1State) (l : List Nat) : Nat → Sha1State
  | 0 => h
  | fuel + 1 =>
    match l with
    | [] => h
    | _ :: _ => sha1BlocksAux (sha1Compress h (l.take 64)) (l.drop 64) fuel

/-- Fold the compression over a padded message. -/
def sha1Blocks (h : Sha1State) (l : List Nat) : Sha1State :=
  sha1BlocksAux h l l.length

/-- The SHA-1 initialization vector. -/
def sha1Init : Sha1State :=
  (1732584193, 4023233417, 2562383102, 271733878, 3285377520)

/-- Lower-case hex digit. -/
def hexDigit (n : Nat) : Char :=
  if n < 10 then Char.ofNat (48 + n) else Char.ofNat (87 + n)

/-- The `k` big-endian hex digits of `w`. -/
def toHexAux (k w : Nat) : List Char :=
  match k with
  | 0 => []
  | j + 1 => toHexAux j (w / 16) ++ [hexDigit (w % 16)]

/-- Python `hashlib.sha1(s.encode("utf-8")).hexdigest()`. -/
def sha1hex (s : String) : String :=
  let (h0, h1, h2, h3, h4) := sha1Blocks sha1Init (sha1Pad (utf8Encode s))
  String.mk (toHexAux 8 h0 ++ toHexAux 8 h1 ++ toHexAux 8 h2 ++
    toHexAux 8 h3 ++ toHexAux 8 h4)

/-- Embedding of `config_flow.py` `_stable_id`: the first 12 hex digits of the
SHA-1 of the UTF-8 encoded pool API code. -/
def stable_id (pool_api_code : String) : String :=
  (sha1hex pool_api_code).take 12

/-! Helper lemmas about the polling-cache guard. -/

theorem status_cache_hit_some_iff (s : ApiState) (now : Nat) (force : Bool)
    (c : Dict) :
    status_cache_hit s now force = some c ↔
      force = false ∧ fast_poll_active s now = false ∧
      s.cachedStatus = some c ∧
      ∃ t, s.lastStatusAt = some t ∧ now - t < s.minPollSeconds := by
  unfold status_cache_hit
  cases force with
  | true => simp
  | false =>
    cases hfp : fast_poll_active s now with
    | true => simp
    | false =>
      rcases hcs : s.cachedStatus with _ | cached <;>
        rcases hls : s.lastStatusAt with _ | t <;> simp
      tauto

theorem config_cache_hit_some_iff (s : ApiState) (now : Nat) (force : Bool)
    (c : Dict) :
    config_cache_hit s now force = some c ↔
      force = false ∧ fast_poll_active s now = false ∧
      s.cachedConfig = some c ∧
      ∃ t, s.lastConfigAt = some t ∧ now - t < s.minPollSeconds := by
  unfold config_cache_hit
  cases force with
  | true => simp
  | false =>
    cases hfp : fast_poll_active s now with
    | true => simp
    | false =>
      rcases hcs : s.cachedConfig with _ | cached <;>
        rcases hls : s.lastConfigAt with _ | t <;> simp
      tauto

theorem pool_status_miss (s : ApiState) (now : Nat) (force : Bool)
    (net : Except PostFail Dict) (h : status_cache_hit s now force = none) :
    (pool_status s now force net).networkCalled = true := by
  unfold pool_status
  rw [h]
  cases net with
  | ok p => rfl
  | error e =>
    by_cases ht : isThrottleFail e <;>
      cases hcs : s.cachedStatus <;> simp [ht, hcs]

theorem pool_config_miss (s : ApiState) (now : Nat) (force : Bool)
    (net : Except PostFail Dict) (h : config_cache_hit s now force = none) :
    (pool_config s now force net).networkCalled = true := by
  unfold pool_config
  rw [h]
  cases net with
  | ok p => rfl
  | error e =>
    by_cases ht : isThrottleFail e <;>
      cases hcs : s.cachedConfig <;> simp [ht, hcs]

theorem pool_status_hit (s : ApiState) (now : Nat) (force : Bool)
    (net : Except PostFail Dict) (c : Dict)
    (h : status_cache_hit s now force = some c) :
    pool_status s now force net = ⟨s, false, .ok c⟩ := by
  unfold pool_status
  rw [h]

theorem pool_config_hit (s : ApiState) (now : Nat) (force : Bool)
    (net : Except PostFail Dict) (c : Dict)
    (h : config_cache_hit s now force = some c) :
    pool_config s now force net = ⟨s, false, .ok c⟩ := by
  unfold pool_config
  rw [h]

theorem pool_status_networkCalled_false_iff (s : ApiState) (now : Nat)
    (force : Bool) (net : Except PostFail Dict) :
    (pool_status s now force net).networkCalled = false ↔
      ∃ c, status_cache_hit s now force = some c := by
  rcases h : status_cache_hit s now force with _ | c
  · simp only [pool_status_miss s now force net h]
    simp [h]
  · rw [pool_status_hit s now force net c h]
    exact ⟨fun _ => ⟨c, rfl⟩, fun _ => rfl⟩

theorem pool_config_networkCalled_false_iff (s : ApiState) (now : Nat)
    (force : Bool) (net : Except PostFail Dict) :
    (pool_config s now force net).networkCalled = false ↔
      ∃ c, config_cache_hit s now force = some c := by
  rcases h : config_cache_hit s now force with _ | c
  · simp only [pool_config_miss s now force net h]
    simp [h]
  · rw [pool_config_hit s now force net c h]
    exact ⟨fun _ => ⟨c, rfl⟩, fun _ => rfl⟩

/-- C1: for `pool_status` / `pool_config`, the cached payload is
returned without a network request exactly when `force` is false, the
fast-poll deadline is inactive, a cached entry exists, and
`now - entry.timestamp < minPollInterval`; in every other case (in
particular whenever `force = true`) a network call is issued, and on a
fresh client two `getStatus` calls within `minPollInterval` (default
60) with `force = false` issue exactly one network call. -/
theorem C1_read_cache_guard (s : ApiState) (now : Nat) (force : Bool)
    (net : Except PostFail Dict) :
    ((pool_status s now force net).networkCalled = false ↔
      (force = false ∧ fast_poll_active s now = false ∧
        ∃ c t, s.cachedStatus = some c ∧ s.lastStatusAt = some t ∧
          now - t < s.minPollSeconds)) ∧
    ((pool_config s now force net).networkCalled = false ↔
      (force = false ∧ fast_poll_active s now = false ∧
        ∃ c t, s.cachedConfig = some c ∧ s.lastConfigAt = some t ∧
          now - t < s.minPollSeconds)) ∧
    ((pool_status s now true net).networkCalled = true) ∧
    ((pool_config s now true net).networkCalled = true) ∧
    (∀ t1 t2 p net2, t2 - t1 < 60 →
      (pool_status (ApiState.init 60) t1 false (.ok p)).networkCalled = true ∧
      pool_status (pool_status (ApiState.init 60) t1 false (.ok p)).state
          t2 false net2
        = ⟨(pool_status (ApiState.init 60) t1 false (.ok p)).state,
           false, .ok p⟩) := by
  refine ⟨?_, ?_, ?_, ?_, ?_⟩
  · rw [pool_status_networkCalled_false_iff]
    constructor
    · rintro ⟨c, hc⟩
      rcases (status_cache_hit_some_iff s now force c).1 hc with
        ⟨hf, hfp, hcs, t, hls, hlt⟩
      exact ⟨hf, hfp, c, t, hcs, hls, hlt⟩
    · rintro ⟨hf, hfp, c, t, hcs, hls, hlt⟩
      exact ⟨c, (status_cache_hit_some_iff s now force c).2
        ⟨hf, hfp, hcs, t, hls, hlt⟩⟩
  · rw [pool_config_networkCalled_false_iff]
    constructor
    · rintro ⟨c, hc⟩
      rcases (config_cache_hit_some_iff s now force c).1 hc with
        ⟨hf, hfp, hcs, t, hls, hlt⟩
      exact ⟨hf, hfp, c, t, hcs, hls, hlt⟩
    · rintro ⟨hf, hfp, c, t, hcs, hls, hlt⟩
      exact ⟨c, (config_cache_hit_some_iff s now force c).2
        ⟨hf, hfp, hcs, t, hls, hlt⟩⟩
  · apply pool_status_miss
    unfold status_cache_hit
    simp
  · apply pool_config_miss
    unfold config_cache_hit
    simp
  · intro t1 t2 p net2 hlt
    have hmiss : status_cache_hit (ApiState.init 60) t1 false = none := by
      unfold status_cache_hit ApiState.init
      simp
    have hstate : (pool_status (ApiState.init 60) t1 false (.ok p)).state
        = { ApiState.init 60 with cachedStatus := some p, lastStatusAt := some t1 } := by
      unfold pool_status
      rw [hmiss]
    refine ⟨pool_status_miss _ _ _ _ hmiss, ?_⟩
    apply pool_status_hit
    rw [hstate]
    apply (status_cache_hit_some_iff _ _ _ _).2
    refine ⟨rfl, ?_, rfl, t1, rfl, ?_⟩
    · unfold fast_poll_active ApiState.init
      simp
    · show t2 - t1 < (ApiState.init 60).minPollSeconds
      unfold ApiState.init
      simpa using hlt

/-- Witness for C1 at concrete inputs: a fresh client, a first
successful read at time 0 and a second non-forced read at time 30. -/
theorem C1_read_cache_guard_witness :
    (pool_status (ApiState.init 60) 0 false (.ok [("x", Json.num 1)])).networkCalled
        = true ∧
    pool_status (pool_status (ApiState.init 60) 0 false
        (.ok [("x", Json.num 1)])).state 30 false (.error (.pyExc "unused"))
      = ⟨(pool_status (ApiState.init 60) 0 false (.ok [("x", Json.num 1)])).state,
         false, .ok [("x", Json.num 1)]⟩ :=
  (C1_read_cache_guard (ApiState.init 60) 0 false
    (.ok [("x", Json.num 1)])).2.2.2.2 0 30 [("x", Json.num 1)]
    (.error (.pyExc "unused")) (by decide)

/-- C2: when a read's network call raises `ThrottleError`, the stale
cached entry for that endpoint is returned without raising if one
exists, the error propagates if none exists, and every other error
propagates unchanged through the polling cache. -/
theorem C2_throttle_masking (s : ApiState) (now : Nat) (force : Bool)
    (code : Int) (desc : String) (cached : Dict) (e : PostFail) :
    (status_cache_hit s now force = none → s.cachedStatus = some cached →
      pool_status s now force (.error (.cmp (.throttle code desc)))
        = ⟨s, true, .ok cached⟩) ∧
    (status_cache_hit s now force = none → s.cachedStatus = none →
      pool_status s now force (.error (.cmp (.throttle code desc)))
        = ⟨s, true, .error (.cmp (.throttle code desc))⟩) ∧
    (status_cache_hit s now force = none → isThrottleFail e = false →
      pool_status s now force (.error e) = ⟨s, true, .error e⟩) ∧
    (config_cache_hit s now force = none → s.cachedConfig = some cached →
      pool_config s now force (.error (.cmp (.throttle code desc)))
        = ⟨s, true, .ok cached⟩) ∧
    (config_cache_hit s now force = none → s.cachedConfig = none →
      pool_config s now force (.error (.cmp (.throttle code desc)))
        = ⟨s, true, .error (.cmp (.throttle code desc))⟩) ∧
    (config_cache_hit s now force = none → isThrottleFail e = false →
      pool_config s now force (.error e) = ⟨s, true, .error e⟩) := by
  refine ⟨?_, ?_, ?_, ?_, ?_, ?_⟩ <;> intro hmiss h
  · unfold pool_status
    rw [hmiss]
    simp [isThrottleFail, h]
  · unfold pool_status
    rw [hmiss]
    simp [isThrottleFail, h]
  · unfold pool_status
    rw [hmiss]
    simp [h]
  · unfold pool_config
    rw [hmiss]
    simp [isThrottleFail, h]
  · unfold pool_config
    rw [hmiss]
    simp [isThrottleFail, h]
  · unfold pool_config
    rw [hmiss]
    simp [h]

/-- Witness for C2: a throttled status read on a client whose cache
holds one entry returns that entry without raising. -/
theorem C2_throttle_masking_witness :
    pool_status
        { minPollSeconds := 60, lastStatusAt := some 0, lastConfigAt := none
        , cachedStatus := some [("y", Json.num 2)], cachedConfig := none
        , fastPollUntil := none }
        100 false (.error (.cmp (.throttle 6 "busy")))
      = ⟨{ minPollSeconds := 60, lastStatusAt := some 0, lastConfigAt := none
         , cachedStatus := some [("y", Json.num 2)], cachedConfig := none
         , fastPollUntil := none }, true, .ok [("y", Json.num 2)]⟩ :=
  (C2_throttle_masking
    { minPollSeconds := 60, lastStatusAt := some 0, lastConfigAt := none
    , cachedStatus := some [("y", Json.num 2)], cachedConfig := none
    , fastPollUntil := none }
    100 false 6 "busy" [("y", Json.num 2)] (.pyExc "unused")).1
    (by simp [status_cache_hit, fast_poll_active]) rfl

/-- C3: a successful `pool_action` sets the fast-poll deadline to
`now + 300` (and a failing one leaves the state untouched); while the
deadline is active every non-forced read issues a network call even
with a fresh cache entry, and once it has passed the freshness rule
applies again. -/
theorem C3_fast_poll_window (s : ApiState) (now : Nat) (p : Dict)
    (e : PostFail) :
    ((pool_action s now (.ok p)).state.fastPollUntil = some (now + 300)) ∧
    ((pool_action s now (.error e)).state = s) ∧
    (∀ now2 net2, now2 < now + 300 →
      (pool_status (pool_action s now (.ok p)).state now2 false net2).networkCalled
        = true ∧
      (pool_config (pool_action s now (.ok p)).state now2 false net2).networkCalled
        = true) ∧
    (∀ now2 net2 cached t, now + 300 ≤ now2 →
      s.cachedStatus = some cached → s.lastStatusAt = some t →
      now2 - t < s.minPollSeconds →
      (pool_status (pool_action s now (.ok p)).state now2 false net2).networkCalled
        = false) := by
  refine ⟨rfl, rfl, ?_, ?_⟩
  · intro now2 net2 hlt
    have hfp : fast_poll_active (pool_action s now (.ok p)).state now2 = true := by
      simp [pool_action, mark_fast_poll, fast_poll_active]
      omega
    constructor
    · apply pool_status_miss
      unfold status_cache_hit
      simp [hfp]
    · apply pool_config_miss
      unfold config_cache_hit
      simp [hfp]
  · intro now2 net2 cached t hge hcs hls hfresh
    rw [pool_status_networkCalled_false_iff]
    refine ⟨cached, (status_cache_hit_some_iff _ _ _ _).2 ⟨rfl, ?_, ?_, t, ?_, ?_⟩⟩
    · simp [pool_action, mark_fast_poll, fast_poll_active]
      omega
    · simpa [pool_action, mark_fast_poll] using hcs
    · simpa [pool_action, mark_fast_poll] using hls
    · simpa [pool_action, mark_fast_poll] using hfresh

/-- Witness for C3: an action at time 0 followed by a non-forced status
read at time 10 (inside the window, cache fresh) issues a network
call; a read at time 400 with a fresh-enough cache does not. -/
theorem C3_fast_poll_window_witness :
    (pool_status
        (pool_action
          { minPollSeconds := 60, lastStatusAt := some 0, lastConfigAt := none
          , cachedStatus := some [("z", Json.num 3)], cachedConfig := none
          , fastPollUntil := none } 0 (.ok [("a", Json.num 0)])).state
        10 false (.ok [("b", Json.num 1)])).networkCalled = true ∧
    (pool_status
        (pool_action
          { minPollSeconds := 500, lastStatusAt := some 350, lastConfigAt := none
          , cachedStatus := some [("z", Json.num 3)], cachedConfig := none
          , fastPollUntil := none } 0 (.ok [("a", Json.num 0)])).state
        400 false (.ok [("b", Json.num 1)])).networkCalled = false :=
  ⟨((C3_fast_poll_window
      { minPollSeconds := 60, lastStatusAt := some 0, lastConfigAt := none
      , cachedStatus := some [("z", Json.num 3)], cachedConfig := none
      , fastPollUntil := none } 0 [("a", Json.num 0)]
      (.pyExc "unused")).2.2.1 10 (.ok [("b", Json.num 1)]) (by decide)).1,
   (C3_fast_poll_window
      { minPollSeconds := 500, lastStatusAt := some 350, lastConfigAt := none
      , cachedStatus := some [("z", Json.num 3)], cachedConfig := none
      , fastPollUntil := none } 0 [("a", Json.num 0)]
      (.pyExc "unused")).2.2.2 400 (.ok [("b", Json.num 1)])
      [("z", Json.num 3)] 350 (by decide) rfl rfl (by decide)⟩

/-- C8: frame conditions — `pool_action` never touches either read
cache (entries or timestamps); `pool_status` touches only the status
entry and `pool_config` only the config entry; neither read ever
modifies the fast-poll deadline. -/
theorem C8_frame_conditions (s : ApiState) (now : Nat) (force : Bool)
    (net : Except PostFail Dict) :
    ((pool_action s now net).state.cachedStatus = s.cachedStatus ∧
     (pool_action s now net).state.cachedConfig = s.cachedConfig ∧
     (pool_action s now net).state.lastStatusAt = s.lastStatusAt ∧
     (pool_action s now net).state.lastConfigAt = s.lastConfigAt) ∧
    ((pool_status s now force net).state.cachedConfig = s.cachedConfig ∧
     (pool_status s now force net).state.lastConfigAt = s.lastConfigAt ∧
     (pool_status s now force net).state.fastPollUntil = s.fastPollUntil) ∧
    ((pool_config s now force net).state.cachedStatus = s.cachedStatus ∧
     (pool_config s now force net).state.lastStatusAt = s.lastStatusAt ∧
     (pool_config s now force net).state.fastPollUntil = s.fastPollUntil) := by
  refine ⟨?_, ?_, ?_⟩
  · cases net <;> simp [pool_action, mark_fast_poll]
  · unfold pool_status
    cases hh : status_cache_hit s now force with
    | some cached => simp
    | none =>
      cases net with
      | ok p => simp
      | error e =>
        by_cases ht : isThrottleFail e <;>
          cases hcs : s.cachedStatus <;> simp [ht, hcs]
  · unfold pool_config
    cases hh : config_cache_hit s now force with
    | some cached => simp
    | none =>
      cases net with
      | ok p => simp
      | error e =>
        by_cases ht : isThrottleFail e <;>
          cases hcc : s.cachedConfig <;> simp [ht, hcc]

/-- C10: whenever a read does not complete a successful network
request — cache hit, or any raised error, including the
throttle-masked return — the entire client state is unchanged; and
once an entry is at least `minPollInterval` old, every non-forced call
issues a network request. -/
theorem C10_failed_read_atomicity (s : ApiState) (now : Nat) (force : Bool)
    (net : Except PostFail Dict) (e : PostFail) (t : Nat) :
    ((pool_status s now force net).networkCalled = false →
      (pool_status s now force net).state = s) ∧
    ((pool_config s now force net).networkCalled = false →
      (pool_config s now force net).state = s) ∧
    ((pool_status s now force (.error e)).state = s) ∧
    ((pool_config s now force (.error e)).state = s) ∧
    (s.lastStatusAt = some t → s.minPollSeconds ≤ now - t →
      (pool_status s now false net).networkCalled = true) ∧
    (s.lastConfigAt = some t → s.minPollSeconds ≤ now - t →
      (pool_config s now false net).networkCalled = true) := by
  refine ⟨?_, ?_, ?_, ?_, ?_, ?_⟩
  · intro h
    rcases (pool_status_networkCalled_false_iff s now force net).1 h with ⟨c, hc⟩
    rw [pool_status_hit s now force net c hc]
  · intro h
    rcases (pool_config_networkCalled_false_iff s now force net).1 h with ⟨c, hc⟩
    rw [pool_config_hit s now force net c hc]
  · unfold pool_status
    cases hh : status_cache_hit s now force with
    | some cached => rfl
    | none =>
      by_cases ht : isThrottleFail e <;>
        cases hcs : s.cachedStatus <;> simp [ht, hcs]
  · unfold pool_config
    cases hh : config_cache_hit s now force with
    | some cached => rfl
    | none =>
      by_cases ht : isThrottleFail e <;>
        cases hcc : s.cachedConfig <;> simp [ht, hcc]
  · intro hls hstale
    apply pool_status_miss
    cases hh : status_cache_hit s now false with
    | none => rfl
    | some c =>
      rcases (status_cache_hit_some_iff s now false c).1 hh with
        ⟨_, _, _, t2, hls2, hfresh⟩
      rw [hls] at hls2
      cases hls2
      omega
  · intro hlc hstale
    apply pool_config_miss
    cases hh : config_cache_hit s now false with
    | none => rfl
    | some c =>
      rcases (config_cache_hit_some_iff s now false c).1 hh with
        ⟨_, _, _, t2, hlc2, hfresh⟩
      rw [hlc] at hlc2
      cases hlc2
      omega

/-- Witness for C10: a cache-hit read at time 30 leaves the state of a
client (entry cached at time 0) unchanged, and at time 60 the same
client issues a network request. -/
theorem C10_failed_read_atomicity_witness :
    ((pool_status
        { minPollSeconds := 60, lastStatusAt := some 0, lastConfigAt := none
        , cachedStatus := some [("w", Json.num 4)], cachedConfig := none
        , fastPollUntil := none } 30 false (.ok [("v", Json.num 5)])).state
      = { minPollSeconds := 60, lastStatusAt := some 0, lastConfigAt := none
        , cachedStatus := some [("w", Json.num 4)], cachedConfig := none
        , fastPollUntil := none }) ∧
    ((pool_status
        { minPollSeconds := 60, lastStatusAt := some 0, lastConfigAt := none
        , cachedStatus := some [("w", Json.num 4)], cachedConfig := none
        , fastPollUntil := none } 60 false (.ok [("v", Json.num 5)])).networkCalled
      = true) :=
  ⟨(C10_failed_read_atomicity
      { minPollSeconds := 60, lastStatusAt := some 0, lastConfigAt := none
      , cachedStatus := some [("w", Json.num 4)], cachedConfig := none
      , fastPollUntil := none } 30 false (.ok [("v", Json.num 5)])
      (.pyExc "unused") 0).1 (by rfl),
   (C10_failed_read_atomicity
      { minPollSeconds := 60, lastStatusAt := some 0, lastConfigAt := none
      , cachedStatus := some [("w", Json.num 4)], cachedConfig := none
      , fastPollUntil := none } 60 false (.ok [("v", Json.num 5)])
      (.pyExc "unused") 0).2.2.2.2.1 rfl (by decide)⟩

/-- C4: failure classification — a payload without `failure_code`
passes through unchanged; an integer `failure_code` raises exactly the
mapped error kind (3,4,5 auth; 6 throttle; 7 not-connected; other
action), carrying the numeric code and the server-supplied
description. -/
theorem C4_classifier_total (payload : Dict) (c : Int) :
    (dictGet payload "failure_code" = none →
      raise_for_failure payload = .ok payload) ∧
    (dictGet payload "failure_code" = some (Json.num c) →
      raise_for_failure payload =
        .error (.cmp
          (if c = 3 ∨ c = 4 ∨ c = 5 then CmpError.auth c (failure_desc payload)
           else if c = 6 then CmpError.throttle c (failure_desc payload)
           else if c = 7 then CmpError.notConnected c (failure_desc payload)
           else CmpError.action c (failure_desc payload)))) := by
  constructor
  · intro h
    unfold raise_for_failure
    rw [h]
  · intro h
    unfold raise_for_failure
    rw [h]
    simp only [pyToInt, FAILURE_CODE_THROTTLED, FAILURE_CODE_POOL_NOT_CONNECTED]
    split_ifs <;> rfl

/-- Witness for C4: code 6 with a description raises the throttle
error carrying both; a payload without `failure_code` passes. -/
theorem C4_classifier_total_witness :
    raise_for_failure
        [("failure_code", Json.num 6), ("failure_description", Json.str "busy")]
      = .error (.cmp (.throttle 6 "busy")) ∧
    raise_for_failure [("temperature", Json.num 28)]
      = .ok [("temperature", Json.num 28)] := by
  constructor
  · have h := (C4_classifier_total
      [("failure_code", Json.num 6), ("failure_description", Json.str "busy")]
      6).2 (by rfl)
    simpa [failure_desc, dictGet, pyStr] using h
  · exact (C4_classifier_total [("temperature", Json.num 28)] 0).1 (by rfl)

/-- C6 counterexample: an HTTP body that is not valid JSON does not
produce a `TransportError` (base `ConnectMyPoolError`) — the
`json.JSONDecodeError` raised by `resp.json` is a `ValueError`,
matched by none of `_post`'s `except` clauses, so it escapes
unclassified. -/
theorem C6_transport_counterexample :
    post HttpEvent.decodeErr = .error (.pyExc "JSONDecodeError") ∧
    isTransportFail (post HttpEvent.decodeErr) = false ∧
    isCmpFail (post HttpEvent.decodeErr) = false :=
  ⟨rfl, rfl, rfl⟩

/-- C6 as amended: `_post` yields a mapping on success, normalizing a
list body to its first element (or `{}` when empty); it fails with
`TransportError` on timeout, connection error, HTTP error status, or
a payload that is not a mapping after normalization; a body that
fails to parse as JSON instead escapes as an unclassified
`JSONDecodeError`. -/
theorem C6_transport_amended (st : Nat) (kvs : Dict) (xs : List Json)
    (j : Json) :
    (post .timeoutErr
      = .error (.cmp (.transport "Timeout talking to ConnectMyPool"))) ∧
    (post (.respErr st)
      = .error (.cmp (.transport ("HTTP " ++ toString st ++ " from ConnectMyPool")))) ∧
    (post .clientErr
      = .error (.cmp (.transport "Network error talking to ConnectMyPool"))) ∧
    (post .decodeErr = .error (.pyExc "JSONDecodeError")) ∧
    (post (.parsed (.obj kvs)) = raise_for_failure kvs) ∧
    (post (.parsed (.arr (Json.obj kvs :: xs))) = raise_for_failure kvs) ∧
    (post (.parsed (.arr [])) = .ok []) ∧
    (post (.parsed (.arr [Json.obj [("temperature", Json.num 28)]]))
      = .ok [("temperature", Json.num 28)]) ∧
    (isObjJson (normalizePayload j) = false →
      post (.parsed j)
        = .error (.cmp (.transport
            ("Unexpected payload type: " ++ jsonTypeName (normalizePayload j))))) := by
  refine ⟨rfl, rfl, rfl, rfl, rfl, rfl, rfl, rfl, ?_⟩
  intro h
  cases hn : normalizePayload j with
  | obj kvs2 =>
    rw [hn] at h
    simp [isObjJson] at h
  | null => simp [post, hn]
  | bool b => simp [post, hn]
  | num n => simp [post, hn]
  | str s => simp [post, hn]
  | arr ys => simp [post, hn]

/-- Witness for C6 (amended): a parsed body `5` is not a mapping and
fails with the transport error naming the type. -/
theorem C6_transport_amended_witness :
    post (.parsed (Json.num 5))
      = .error (.cmp (.transport "Unexpected payload type: int")) := by
  have h := (C6_transport_amended 0 [] [] (Json.num 5)).2.2.2.2.2.2.2.2 (by rfl)
  simpa [normalizePayload, jsonTypeName] using h

/-! Helper lemmas about the cycling loops. -/

theorem cycle_loop_success_bound (d : Int) (o : String) (obs : Nat → Option Int)
    (act : Nat → Option CmpError) :
    ∀ fuel i k, cycle_loop d o obs act i fuel = .success k →
      i ≤ k ∧ k < i + fuel := by
  intro fuel
  induction fuel with
  | zero => intro i k h; simp [cycle_loop] at h
  | succ fuel ih =>
    intro i k h
    simp only [cycle_loop] at h
    by_cases hobs : obs i = some d
    · rw [if_pos hobs] at h
      cases h
      omega
    · rw [if_neg hobs] at h
      cases hact : act i with
      | some e => rw [hact] at h; cases h
      | none =>
        rw [hact] at h
        have := ih (i + 1) k h
        omega

theorem cycle_loop_success_first (d : Int) (o : String) (obs : Nat → Option Int)
    (act : Nat → Option CmpError) :
    ∀ fuel i k, cycle_loop d o obs act i fuel = .success k →
      obs k = some d ∧ ∀ j, i ≤ j → j < k → obs j ≠ some d := by
  intro fuel
  induction fuel with
  | zero => intro i k h; simp [cycle_loop] at h
  | succ fuel ih =>
    intro i k h
    simp only [cycle_loop] at h
    by_cases hobs : obs i = some d
    · rw [if_pos hobs] at h
      cases h
      exact ⟨hobs, fun j h1 h2 => by omega⟩
    · rw [if_neg hobs] at h
      cases hact : act i with
      | some e => rw [hact] at h; cases h
      | none =>
        rw [hact] at h
        obtain ⟨h1, h2⟩ := ih (i + 1) k h
        refine ⟨h1, fun j hij hjk => ?_⟩
        rcases Nat.eq_or_lt_of_le hij with rfl | hlt
        · exact hobs
        · exact h2 j (by omega) hjk

theorem cycle_loop_exhausted (d : Int) (o : String) (obs : Nat → Option Int)
    (act : Nat → Option CmpError) :
    ∀ fuel i, (∀ j, i ≤ j → j < i + fuel → obs j ≠ some d) →
      (∀ j, i ≤ j → j < i + fuel → act j = none) →
      cycle_loop d o obs act i fuel = .unreachable o := by
  intro fuel
  induction fuel with
  | zero => intro i _ _; rfl
  | succ fuel ih =>
    intro i hobs hact
    simp only [cycle_loop]
    rw [if_neg (hobs i (le_refl i) (by omega))]
    rw [hact i (le_refl i) (by omega)]
    exact ih (i + 1) (fun j a b => hobs j (by omega) (by omega))
      (fun j a b => hact j (by omega) (by omega))

theorem cycle_loop_raises (d : Int) (o : String) (obs : Nat → Option Int)
    (act : Nat → Option CmpError) (e : CmpError) :
    ∀ fuel i m, i ≤ m → m < i + fuel →
      (∀ j, i ≤ j → j ≤ m → obs j ≠ some d) →
      (∀ j, i ≤ j → j < m → act j = none) →
      act m = some e →
      cycle_loop d o obs act i fuel = .cycleFailed e := by
  intro fuel
  induction fuel with
  | zero => intro i m h1 h2 _ _ _; omega
  | succ fuel ih =>
    intro i m h1 h2 hobs hact hme
    simp only [cycle_loop]
    rw [if_neg (hobs i (le_refl i) h1)]
    rcases Nat.eq_or_lt_of_le h1 with rfl | hlt
    · simp [hme]
    · rw [hact i (le_refl i) hlt]
      exact ih (i + 1) m (by omega) (by omega)
        (fun j a b => hobs j (by omega) b)
        (fun j a b => hact j (by omega) b) hme

theorem mode_on_of_desired (m : Option Int)
    (h : mode_in_desired_on m = true) : mode_on_enough m = true := by
  cases m with
  | none => simp [mode_in_desired_on] at h
  | some v =>
    simp [mode_in_desired_on] at h
    simp [mode_on_enough]
    omega

theorem turn_on_loop_already_on (obs : Nat → Option Int)
    (act : Nat → Option CmpError) :
    ∀ fuel i, mode_on_enough (obs i) = true →
      turn_on_loop obs act i fuel = .success i := by
  intro fuel i h
  cases fuel with
  | zero => simp [turn_on_loop, h]
  | succ fuel =>
    simp only [turn_on_loop]
    by_cases hd : mode_in_desired_on (obs i) = true
    · rw [if_pos hd]
    · rw [if_neg hd, if_pos h]

theorem turn_on_loop_success_bound (obs : Nat → Option Int)
    (act : Nat → Option CmpError) :
    ∀ fuel i k, turn_on_loop obs act i fuel = .success k →
      i ≤ k ∧ k ≤ i + fuel := by
  intro fuel
  induction fuel with
  | zero =>
    intro i k h
    by_cases he : mode_on_enough (obs i) = true
    · simp [turn_on_loop, he] at h
      omega
    · simp [turn_on_loop, he] at h
  | succ fuel ih =>
    intro i k h
    simp only [turn_on_loop] at h
    by_cases hd : mode_in_desired_on (obs i) = true
    · rw [if_pos hd] at h
      cases h
      omega
    · rw [if_neg hd] at h
      by_cases he : mode_on_enough (obs i) = true
      · rw [if_pos he] at h
        cases h
        omega
      · rw [if_neg he] at h
        cases hact : act i with
        | some e => rw [hact] at h; cases h
        | none =>
          rw [hact] at h
          have := ih (i + 1) k h
          omega

theorem turn_on_loop_exhausted (obs : Nat → Option Int)
    (act : Nat → Option CmpError) :
    ∀ fuel i, (∀ j, i ≤ j → j ≤ i + fuel → mode_on_enough (obs j) = false) →
      (∀ j, i ≤ j → j < i + fuel → act j = none) →
      turn_on_loop obs act i fuel = .failed := by
  intro fuel
  induction fuel with
  | zero =>
    intro i h1 _
    simp [turn_on_loop, h1 i (le_refl i) (by omega)]
  | succ fuel ih =>
    intro i h1 h2
    have hoe : mode_on_enough (obs i) = false := h1 i (le_refl i) (by omega)
    have hdi : mode_in_desired_on (obs i) = false := by
      cases hd : mode_in_desired_on (obs i) with
      | false => rfl
      | true => exact absurd (mode_on_of_desired _ hd) (by simp [hoe])
    simp only [turn_on_loop]
    rw [if_neg (by simp [hdi]), if_neg (by simp [hoe])]
    rw [h2 i (le_refl i) (by omega)]
    exact ih (i + 1) (fun j a b => h1 j (by omega) (by omega))
      (fun j a b => h2 j (by omega) (by omega))

/-- C5: the mode-cycling resolvers succeed with zero cycle actions
when the current mode already matches, otherwise issue at most 8 cycle
actions, stop at the first observed match, fail with the
mode-naming error when the bound is exhausted, and propagate a cycle
action's error immediately. -/
theorem C5_mode_cycling_bounded (option : String) (d : Int)
    (obs : Nat → Option Int) (act : Nat → Option CmpError) (k : Nat)
    (e : CmpError) :
    (findDesired CHANNEL_MODES option = some d → obs 0 = some d →
      async_select_option option obs act = .success 0) ∧
    (async_select_option option obs act = .success k → k ≤ 7) ∧
    (findDesired CHANNEL_MODES option = some d →
      async_select_option option obs act = .success k →
      obs k = some d ∧ ∀ j, j < k → obs j ≠ some d) ∧
    (findDesired CHANNEL_MODES option = some d →
      (∀ i, i < 8 → obs i ≠ some d) → (∀ i, i < 8 → act i = none) →
      async_select_option option obs act = .unreachable option) ∧
    (findDesired CHANNEL_MODES option = some d → k < 8 →
      (∀ j, j ≤ k → obs j ≠ some d) → (∀ j, j < k → act j = none) →
      act k = some e →
      async_select_option option obs act = .cycleFailed e) ∧
    (mode_on_enough (obs 0) = true → async_turn_on obs act = .success 0) ∧
    (async_turn_on obs act = .success k → k ≤ 8) ∧
    ((∀ j, j ≤ 8 → mode_on_enough (obs j) = false) →
      (∀ j, j < 8 → act j = none) → async_turn_on obs act = .failed) := by
  refine ⟨?_, ?_, ?_, ?_, ?_, ?_, ?_, ?_⟩
  · intro hfd hobs
    unfold async_select_option
    rw [hfd]
    simp only [cycle_loop]
    rw [if_pos hobs]
  · intro h
    unfold async_select_option at h
    cases hfd : findDesired CHANNEL_MODES option with
    | none => rw [hfd] at h; cases h
    | some d2 =>
      rw [hfd] at h
      have := cycle_loop_success_bound d2 option obs act 8 0 k h
      omega
  · intro hfd h
    unfold async_select_option at h
    rw [hfd] at h
    obtain ⟨h1, h2⟩ := cycle_loop_success_first d option obs act 8 0 k h
    exact ⟨h1, fun j hj => h2 j (by omega) hj⟩
  · intro hfd hobs hact
    unfold async_select_option
    rw [hfd]
    exact cycle_loop_exhausted d option obs act 8 0
      (fun j _ hj => hobs j (by omega)) (fun j _ hj => hact j (by omega))
  · intro hfd hk hobs hact hke
    unfold async_select_option
    rw [hfd]
    exact cycle_loop_raises d option obs act e 8 0 k (by omega) (by omega)
      (fun j _ hj => hobs j hj) (fun j _ hj => hact j hj) hke
  · intro h
    exact turn_on_loop_already_on obs act 8 0 h
  · intro h
    have := turn_on_loop_success_bound obs act 8 0 k h
    omega
  · intro h1 h2
    exact turn_on_loop_exhausted obs act 8 0
      (fun j _ hj => h1 j (by omega)) (fun j _ hj => h2 j (by omega))

/-- Witness for C5: selecting "On" when the channel already reports
mode 2 succeeds with zero cycles; selecting "On" on a channel stuck in
mode 0 exhausts the bound and fails naming the mode. -/
theorem C5_mode_cycling_bounded_witness :
    async_select_option "On" (fun _ => some 2) (fun _ => none)
      = .success 0 ∧
    async_select_option "On" (fun _ => some 0) (fun _ => none)
      = .unreachable "On" :=
  ⟨(C5_mode_cycling_bounded "On" 2 (fun _ => some 2) (fun _ => none) 0
      (CmpError.transport "x")).1 rfl rfl,
   (C5_mode_cycling_bounded "On" 2 (fun _ => some 0) (fun _ => none) 0
      (CmpError.transport "x")).2.2.2.1 rfl
      (fun i _ => by simp) (fun i _ => rfl)⟩

theorem lockInv_init : lockInv ActionSystem.init := by
  constructor <;> rintro (h | h) <;> simp [ActionSystem.init] at h

theorem lockInv_step (s t : ActionSystem) (hstep : ActionStep s t)
    (ih : lockInv s) : lockInv t := by
  obtain ⟨ih1, ih2⟩ := ih
  cases hstep with
  | acquire1 hpc hfree =>
    refine ⟨fun _ => rfl, fun hb => ?_⟩
    have := ih2 hb
    rw [hfree] at this
    cases this
  | postOk1 hpc =>
    exact ⟨fun _ => ih1 (Or.inl hpc), fun hb => ih2 hb⟩
  | postRaise1 hpc =>
    refine ⟨fun hb => ?_, fun hb => ?_⟩
    · rcases hb with hb | hb <;> cases hb
    · have h2 := ih2 hb
      have h1 := ih1 (Or.inl hpc)
      rw [h1] at h2
      cases h2
  | finish1 hpc =>
    refine ⟨fun hb => ?_, fun hb => ?_⟩
    · rcases hb with hb | hb <;> cases hb
    · have h2 := ih2 hb
      have h1 := ih1 (Or.inr hpc)
      rw [h1] at h2
      cases h2
  | acquire2 hpc hfree =>
    refine ⟨fun hb => ?_, fun _ => rfl⟩
    have := ih1 hb
    rw [hfree] at this
    cases this
  | postOk2 hpc =>
    exact ⟨fun hb => ih1 hb, fun _ => ih2 (Or.inl hpc)⟩
  | postRaise2 hpc =>
    refine ⟨fun hb => ?_, fun hb => ?_⟩
    · have h1 := ih1 hb
      have h2 := ih2 (Or.inl hpc)
      rw [h2] at h1
      cases h1
    · rcases hb with hb | hb <;> cases hb
  | finish2 hpc =>
    refine ⟨fun hb => ?_, fun hb => ?_⟩
    · have h1 := ih1 hb
      have h2 := ih2 (Or.inr hpc)
      rw [h2] at h1
      cases h1
    · rcases hb with hb | hb <;> cases hb

theorem lockInv_of_reach (s : ActionSystem) (h : ActionReach s) : lockInv s := by
  induction h with
  | base => exact lockInv_init
  | step s t hs hstep ih => exact lockInv_step s t hstep ih

/-- C7: in every state reachable from two concurrent `pool_action`
calls on the same client, at most one of the two coroutines is inside
the locked region (network request in flight or deadline update), so
their network calls never overlap. -/
theorem C7_single_flight_actions (s : ActionSystem) (h : ActionReach s) :
    ¬ (busy s.pc1 ∧ busy s.pc2) := by
  rintro ⟨h1, h2⟩
  obtain ⟨inv1, inv2⟩ := lockInv_of_reach s h
  have e1 := inv1 h1
  have e2 := inv2 h2
  rw [e1] at e2
  cases e2

/-- Witness for C7: the mutual-exclusion property applied to a
concrete reachable state (task 1 has acquired the lock and has its
request in flight). -/
theorem C7_single_flight_actions_witness :
    ¬ (busy (ActionPc.inFlight) ∧ busy (ActionPc.start)) :=
  C7_single_flight_actions
    { pc1 := .inFlight, pc2 := .start, holder := some false }
    (ActionReach.step _ _ ActionReach.base
      (ActionStep.acquire1 ActionSystem.init rfl rfl))

mutual

theorem redact_ok : ∀ j : Json, redactedOk (redact j) = true
  | .null => rfl
  | .bool b => rfl
  | .num n => rfl
  | .str s => rfl
  | .arr xs => by simpa [redact, redactedOk] using redactList_ok xs
  | .obj kvs => by simpa [redact, redactedOk] using redactPairs_ok kvs

theorem redactList_ok : ∀ xs : List Json, redactedOkList (redactList xs) = true
  | [] => rfl
  | x :: xs => by
    simp only [redactList, redactedOkList, Bool.and_eq_true]
    exact ⟨redact_ok x, redactList_ok xs⟩

theorem redactPairs_ok :
    ∀ kvs : List (String × Json), redactedOkPairs (redactPairs kvs) = true
  | [] => rfl
  | (k, v) :: rest => by
    by_cases hk : k = "pool_api_code"
    · simp only [redactPairs, redactedOkPairs, if_pos hk, Bool.and_eq_true]
      exact ⟨by simp, redactPairs_ok rest⟩
    · simp only [redactPairs, redactedOkPairs, if_neg hk, Bool.and_eq_true]
      exact ⟨redact_ok v, redactPairs_ok rest⟩

end

mutual

theorem noApiCode_redactedOk : ∀ j, noApiCodeKey j = true → redactedOk j = true
  | .null, _ => rfl
  | .bool b, _ => rfl
  | .num n, _ => rfl
  | .str s, _ => rfl
  | .arr xs, h => by
    simp only [noApiCodeKey] at h
    simpa [redactedOk] using noApiCode_redactedOkList xs h
  | .obj kvs, h => by
    simp only [noApiCodeKey] at h
    simpa [redactedOk] using noApiCode_redactedOkPairs kvs h

theorem noApiCode_redactedOkList :
    ∀ xs, noApiCodeKeyList xs = true → redactedOkList xs = true
  | [], _ => rfl
  | x :: xs, h => by
    simp only [noApiCodeKeyList, Bool.and_eq_true] at h
    simp only [redactedOkList, Bool.and_eq_true]
    exact ⟨noApiCode_redactedOk x h.1, noApiCode_redactedOkList xs h.2⟩

theorem noApiCode_redactedOkPairs :
    ∀ kvs, noApiCodeKeyPairs kvs = true → redactedOkPairs kvs = true
  | [], _ => rfl
  | (k, v) :: rest, h => by
    simp only [noApiCodeKeyPairs, Bool.and_eq_true, decide_eq_true_eq] at h
    obtain ⟨⟨hk, hv⟩, hrest⟩ := h
    simp only [redactedOkPairs, if_neg hk, Bool.and_eq_true]
    exact ⟨noApiCode_redactedOk v hv, noApiCode_redactedOkPairs rest hrest⟩

end

set_option maxRecDepth 40000 in
/-- C9: the diagnostics export never contains a cleartext value under
any `pool_api_code` key (given that the options dict — the one part
not passed through `_redact` — contains no such key, which the
options-flow schema guarantees), and the config-flow unique id is the
12-hex-digit SHA-1 prefix of the pool API code, depending on the code
only through its hash — pinned against `hashlib` on a concrete
input. -/
theorem C9_secret_not_exported (d : DiagData) (c c1 c2 : String) :
    (noApiCodeKey (Json.obj d.entryOptions) = true →
      redactedOk (diagnostics d) = true) ∧
    (stable_id c = (sha1hex c).take 12) ∧
    (sha1hex c1 = sha1hex c2 → stable_id c1 = stable_id c2) ∧
    (stable_id "abc123" = "6367c48dd193") := by
  refine ⟨?_, rfl, ?_, ?_⟩
  · intro hopts
    obtain ⟨title, edata, eopts, burl, cfg, codata⟩ := d
    simp only [noApiCodeKey] at hopts
    have hopts2 := noApiCode_redactedOkPairs eopts hopts
    have h1 : redactedOk (redact (Json.obj edata)) = true := redact_ok _
    have h2 : redactedOk (redact cfg) = true := redact_ok _
    have h3 : redact (Json.obj edata) = Json.obj (redactPairs edata) := rfl
    rcases burl with _ | u <;> rcases codata with _ | j <;>
      simp [diagnostics, redactedOk, redactedOkPairs, redactedOkList,
        redact_ok, redactPairs_ok, hopts2, h1, h2, h3]
  · intro h
    unfold stable_id
    rw [h]
  · rfl

set_option maxRecDepth 40000 in
/-- Witness for C9: a concrete diagnostics export (secret present in
`entry.data`, options from the options-flow schema) is fully
redacted; the stable id is invariant under equal hashes. -/
theorem C9_secret_not_exported_witness :
    redactedOk (diagnostics
      { title := "ConnectMyPool"
      , entryData := [("pool_api_code", Json.str "secret-code")]
      , entryOptions := [("scan_interval", Json.num 60)]
      , baseUrl := some "https://www.connectmypool.com.au"
      , config := Json.obj [("pool_api_code", Json.str "secret-code")]
      , coordinatorData := none }) = true ∧
    stable_id "a" = stable_id "a" :=
  ⟨(C9_secret_not_exported
      { title := "ConnectMyPool"
      , entryData := [("pool_api_code", Json.str "secret-code")]
      , entryOptions := [("scan_interval", Json.num 60)]
      , baseUrl := some "https://www.connectmypool.com.au"
      , config := Json.obj [("pool_api_code", Json.str "secret-code")]
      , coordinatorData := none } "a" "a" "a").1 (by rfl),
   (C9_secret_not_exported
      { title := "ConnectMyPool"
      , entryData := [("pool_api_code", Json.str "secret-code")]
      , entryOptions := [("scan_interval", Json.num 60)]
      , baseUrl := some "https://www.connectmypool.com.au"
      , config := Json.obj [("pool_api_code", Json.str "secret-code")]
      , coordinatorData := none } "a" "a" "a").2.2.1 rfl⟩

end ConnectMyPool
